import Mathlib

/-!
Verification of the messaging/codec core of the sdk-js repository.

The development shallowly embeds the TypeScript sources:

* the record codecs (Attestation compress/decompress from AttestationUtils,
  the Quote family from QuoteUtils) operate on an untyped JavaScript value
  model `JSVal`, so that truthiness checks, `typeof` checks, array shape
  checks and property reads behave as they do at the JavaScript runtime;
* the message envelope (Message.ts) is embedded over a symbolic model of the
  external cryptographic collaborators (hash, signature, asymmetric box),
  which the specification explicitly treats as external interfaces;
* fallible code returns `Except SDKError`, a thrown error being the
  `.error` case, so that which check raises first is observable.
-/

/-- Untyped JavaScript runtime values, as far as the codec layer inspects
them: primitives, arrays and plain objects (an object is its ordered field
list). `NaN` and reference identity are not modelled; none of the embedded
code depends on them. -/
inductive JSVal where
  | undefined
  | null
  | bool (b : Bool)
  | num (n : Int)
  | str (s : String)
  | arr (xs : List JSVal)
  | obj (fields : List (String × JSVal))

/-- JavaScript truthiness: `undefined`, `null`, `false`, `0` and the empty
string are falsy; every array and object is truthy. -/
def truthy : JSVal → Bool
  | .undefined => false
  | .null => false
  | .bool b => b
  | .num n => n != 0
  | .str s => s != ""
  | .arr _ => true
  | .obj _ => true

/-- The JavaScript `typeof` operator on the modelled values
(`typeof null` is the historical `"object"`). -/
def jsTypeof : JSVal → String
  | .undefined => "undefined"
  | .null => "object"
  | .bool _ => "boolean"
  | .num _ => "number"
  | .str _ => "string"
  | .arr _ => "object"
  | .obj _ => "object"

/-- Property read `v[k]`: the first field named `k` of an object, and
`undefined` otherwise (the embedded code only reads properties of values it
has checked). -/
def jsGet (v : JSVal) (k : String) : JSVal :=
  match v with
  | .obj fields =>
    match fields.find? (fun p => p.1 == k) with
    | some p => p.2
    | none => .undefined
  | _ => .undefined

/-- Array index read `v[i]` with the JavaScript out-of-range result
`undefined`; `undefined` as well on a non-array. -/
def jsIndex (v : JSVal) (i : Nat) : JSVal :=
  match v with
  | .arr xs => xs.getD i .undefined
  | _ => .undefined

/-- JavaScript strict equality `===` on the fragment the embedded code uses:
primitives of the same type compare structurally, values of different types
are never strictly equal. (Object/array reference identity is not needed:
the sources only compare primitives with `===`.) -/
def strictEq : JSVal → JSVal → Bool
  | .undefined, .undefined => true
  | .null, .null => true
  | .bool a, .bool b => a == b
  | .num a, .num b => a == b
  | .str a, .str b => a == b
  | _, _ => false

/-- Is `v` an array of length exactly `n` (the shape test
`Array.isArray(v) && v.length === n`)? -/
def jsIsArrayOfLength (v : JSVal) (n : Nat) : Bool :=
  match v with
  | .arr xs => xs.length == n
  | _ => false

/-- The SDK error values raised by the embedded code
(errorhandling/SDKErrors). Each source error factory becomes one
constructor; the argument of `ERROR_DECOMPRESSION_ARRAY` is the record-type
name the source passes (`none` when the source passes no argument). -/
inductive SDKError where
  | ERROR_CTYPE_HASH_NOT_PROVIDED
  | ERROR_CLAIM_HASH_NOT_PROVIDED
  | ERROR_DELEGATION_ID_TYPE
  | ERROR_OWNER_NOT_PROVIDED
  | ERROR_REVOCATION_BIT_MISSING
  | ERROR_HASH_MALFORMED (what : String)
  | ERROR_ADDRESS_INVALID (what : String)
  | ERROR_COMPRESS_OBJECT (what : String)
  | ERROR_DECOMPRESSION_ARRAY (what : Option String)
  | ERROR_NONCE_HASH_INVALID
  | ERROR_SIGNATURE_UNVERIFIABLE
  | ERROR_DECODING_MESSAGE
  | ERROR_PARSING_MESSAGE
  | ERROR_IDENTITY_MISMATCH (context : String) (who : String)
  | ERROR_CLAIM_UNVERIFIABLE
  | ERROR_NESTED_CLAIM_UNVERIFIABLE
deriving DecidableEq

/-- The specification's `MalformedRecord` error class: the compress-time
errors raised for a missing/invalid required field (§7 of the spec groups
the per-field factories under this name). -/
def SDKError.isMalformedRecord : SDKError → Bool
  | .ERROR_CTYPE_HASH_NOT_PROVIDED => true
  | .ERROR_CLAIM_HASH_NOT_PROVIDED => true
  | .ERROR_DELEGATION_ID_TYPE => true
  | .ERROR_OWNER_NOT_PROVIDED => true
  | .ERROR_REVOCATION_BIT_MISSING => true
  | .ERROR_COMPRESS_OBJECT _ => true
  | _ => false

/-- The specification's `IdentityMismatch` error class. -/
def SDKError.isIdentityMismatch : SDKError → Bool
  | .ERROR_IDENTITY_MISMATCH _ _ => true
  | _ => false

/-- Does the result carry the specification's `ArrayShapeMismatch` error
(the `ERROR_DECOMPRESSION_ARRAY` family)? -/
def isArrMismatch : Except SDKError JSVal → Bool
  | .error (.ERROR_DECOMPRESSION_ARRAY _) => true
  | _ => false

/-- Did the computation succeed? -/
def isOkRes : Except SDKError JSVal → Bool
  | .ok _ => true
  | .error _ => false

/-- Modelled from the spec: `DataUtils.validateHash` and
`DataUtils.validateAddress` are not in the source set; per the spec they are
external well-formedness validators for hash strings and addresses. They are
abstracted as boolean predicates; `true` means the validator accepts, `false`
that it throws. -/
structure DataValidators where
  hashOk : JSVal → Bool
  addressOk : JSVal → Bool

/-- The operator-precedence accident from the Attestation `errorCheck`
source, verbatim: `typeof input.delegationId !== 'string' &&
!input.delegationId === null`. The right conjunct applies `!` (boolean
negation) to `input.delegationId` first and then strictly compares the
resulting boolean to `null`. -/
def delegationIdGuard (input : JSVal) : Bool :=
  (jsTypeof (jsGet input "delegationId") != "string") &&
    strictEq (JSVal.bool (! truthy (jsGet input "delegationId"))) JSVal.null

/-- Attestation `errorCheck` (AttestationUtils). The source is a sequence of
independent checks each of which throws; a throw aborts the rest, which the
nested conditional chain reproduces. The validator calls
(`DataUtils.validateHash`, `DataUtils.validateAddress`) are the abstracted
external validators. -/
def attErrorCheck (V : DataValidators) (input : JSVal) : Except SDKError Unit :=
  if ! truthy (jsGet input "cTypeHash") then
    .error SDKError.ERROR_CTYPE_HASH_NOT_PROVIDED
  else if ! V.hashOk (jsGet input "cTypeHash") then
    .error (SDKError.ERROR_HASH_MALFORMED "CType")
  else if ! truthy (jsGet input "claimHash") then
    .error SDKError.ERROR_CLAIM_HASH_NOT_PROVIDED
  else if ! V.hashOk (jsGet input "claimHash") then
    .error (SDKError.ERROR_HASH_MALFORMED "Claim")
  else if delegationIdGuard input then
    .error SDKError.ERROR_DELEGATION_ID_TYPE
  else if ! truthy (jsGet input "owner") then
    .error SDKError.ERROR_OWNER_NOT_PROVIDED
  else if ! V.addressOk (jsGet input "owner") then
    .error (SDKError.ERROR_ADDRESS_INVALID "owner")
  else if jsTypeof (jsGet input "revoked") != "boolean" then
    .error SDKError.ERROR_REVOCATION_BIT_MISSING
  else
    .ok ()

/-- Attestation `compress` (AttestationUtils): run `errorCheck`, then emit
the fixed 5-tuple `[claimHash, cTypeHash, owner, revoked, delegationId]`. -/
def attCompress (V : DataValidators) (attestation : JSVal) : Except SDKError JSVal :=
  match attErrorCheck V attestation with
  | .error e => .error e
  | .ok _ =>
    .ok (.arr [jsGet attestation "claimHash", jsGet attestation "cTypeHash",
      jsGet attestation "owner", jsGet attestation "revoked",
      jsGet attestation "delegationId"])

/-- Attestation `decompress` (AttestationUtils): reject anything that is not
an array of length 5, then rebuild the record positionally. -/
def attDecompress (attestation : JSVal) : Except SDKError JSVal :=
  match attestation with
  | .arr xs =>
    if xs.length != 5 then
      .error (SDKError.ERROR_DECOMPRESSION_ARRAY (some "Attestation"))
    else
      .ok (.obj [("claimHash", xs.getD 0 .undefined), ("cTypeHash", xs.getD 1 .undefined),
        ("owner", xs.getD 2 .undefined), ("revoked", xs.getD 3 .undefined),
        ("delegationId", xs.getD 4 .undefined)])
  | _ => .error (SDKError.ERROR_DECOMPRESSION_ARRAY (some "Attestation"))

/-- `compressCost` (QuoteUtils): all three components must be truthy. -/
def compressCost (cost : JSVal) : Except SDKError JSVal :=
  if ! truthy (jsGet cost "gross") || ! truthy (jsGet cost "net") ||
      ! truthy (jsGet cost "tax") then
    .error (SDKError.ERROR_COMPRESS_OBJECT "Cost Breakdown")
  else
    .ok (.arr [jsGet cost "gross", jsGet cost "net", jsGet cost "tax"])

/-- `decompressCost` (QuoteUtils): an array of length exactly 3. -/
def decompressCost (cost : JSVal) : Except SDKError JSVal :=
  match cost with
  | .arr xs =>
    if xs.length != 3 then
      .error (SDKError.ERROR_DECOMPRESSION_ARRAY (some "Cost Breakdown"))
    else
      .ok (.obj [("gross", xs.getD 0 .undefined), ("net", xs.getD 1 .undefined),
        ("tax", xs.getD 2 .undefined)])
  | _ => .error (SDKError.ERROR_DECOMPRESSION_ARRAY (some "Cost Breakdown"))

/-- `compressQuote` (QuoteUtils): six required fields, then the 6-tuple with
the nested cost compressed by `compressCost`. -/
def compressQuote (quote : JSVal) : Except SDKError JSVal :=
  if ! truthy (jsGet quote "attesterAddress") || ! truthy (jsGet quote "cTypeHash") ||
      ! truthy (jsGet quote "cost") || ! truthy (jsGet quote "currency") ||
      ! truthy (jsGet quote "termsAndConditions") || ! truthy (jsGet quote "timeframe") then
    .error (SDKError.ERROR_COMPRESS_OBJECT "Quote")
  else
    match compressCost (jsGet quote "cost") with
    | .error e => .error e
    | .ok cost =>
      .ok (.arr [jsGet quote "attesterAddress", jsGet quote "cTypeHash", cost,
        jsGet quote "currency", jsGet quote "termsAndConditions",
        jsGet quote "timeframe"])

/-- `decompressQuote` (QuoteUtils): an array of length exactly 6, the cost
entry decompressed by `decompressCost` (whose own failure propagates). The
source passes no record name to this `ERROR_DECOMPRESSION_ARRAY`. -/
def decompressQuote (quote : JSVal) : Except SDKError JSVal :=
  match quote with
  | .arr xs =>
    if xs.length != 6 then
      .error (SDKError.ERROR_DECOMPRESSION_ARRAY none)
    else
      match decompressCost (xs.getD 2 .undefined) with
      | .error e => .error e
      | .ok cost =>
        .ok (.obj [("attesterAddress", xs.getD 0 .undefined), ("cTypeHash", xs.getD 1 .undefined),
          ("cost", cost), ("currency", xs.getD 3 .undefined),
          ("termsAndConditions", xs.getD 4 .undefined), ("timeframe", xs.getD 5 .undefined)])
  | _ => .error (SDKError.ERROR_DECOMPRESSION_ARRAY none)

/-- `compressAttesterSignedQuote` (QuoteUtils): the quote's six fields plus
`attesterSignature`, all required. -/
def compressAttesterSignedQuote (attesterSignedQuote : JSVal) : Except SDKError JSVal :=
  if ! truthy (jsGet attesterSignedQuote "attesterAddress") ||
      ! truthy (jsGet attesterSignedQuote "cTypeHash") ||
      ! truthy (jsGet attesterSignedQuote "cost") ||
      ! truthy (jsGet attesterSignedQuote "currency") ||
      ! truthy (jsGet attesterSignedQuote "termsAndConditions") ||
      ! truthy (jsGet attesterSignedQuote "timeframe") ||
      ! truthy (jsGet attesterSignedQuote "attesterSignature") then
    .error (SDKError.ERROR_COMPRESS_OBJECT "Attester Signed Quote")
  else
    match compressCost (jsGet attesterSignedQuote "cost") with
    | .error e => .error e
    | .ok cost =>
      .ok (.arr [jsGet attesterSignedQuote "attesterAddress",
        jsGet attesterSignedQuote "cTypeHash", cost,
        jsGet attesterSignedQuote "currency",
        jsGet attesterSignedQuote "termsAndConditions",
        jsGet attesterSignedQuote "timeframe",
        jsGet attesterSignedQuote "attesterSignature"])

/-- `decompressAttesterSignedQuote` (QuoteUtils): arity 7, cost at index 2. -/
def decompressAttesterSignedQuote (attesterSignedQuote : JSVal) : Except SDKError JSVal :=
  match attesterSignedQuote with
  | .arr xs =>
    if xs.length != 7 then
      .error (SDKError.ERROR_DECOMPRESSION_ARRAY none)
    else
      match decompressCost (xs.getD 2 .undefined) with
      | .error e => .error e
      | .ok cost =>
        .ok (.obj [("attesterAddress", xs.getD 0 .undefined), ("cTypeHash", xs.getD 1 .undefined),
          ("cost", cost), ("currency", xs.getD 3 .undefined),
          ("termsAndConditions", xs.getD 4 .undefined), ("timeframe", xs.getD 5 .undefined),
          ("attesterSignature", xs.getD 6 .undefined)])
  | _ => .error (SDKError.ERROR_DECOMPRESSION_ARRAY none)

/-- `compressQuoteAgreement` (QuoteUtils): the source checks the same seven
fields as the attester-signed quote (`claimerSignature` and `rootHash` are
not required) and emits the 9-tuple. -/
def compressQuoteAgreement (quoteAgreement : JSVal) : Except SDKError JSVal :=
  if ! truthy (jsGet quoteAgreement "attesterAddress") ||
      ! truthy (jsGet quoteAgreement "cTypeHash") ||
      ! truthy (jsGet quoteAgreement "cost") ||
      ! truthy (jsGet quoteAgreement "currency") ||
      ! truthy (jsGet quoteAgreement "termsAndConditions") ||
      ! truthy (jsGet quoteAgreement "timeframe") ||
      ! truthy (jsGet quoteAgreement "attesterSignature") then
    .error (SDKError.ERROR_COMPRESS_OBJECT "Quote Agreement")
  else
    match compressCost (jsGet quoteAgreement "cost") with
    | .error e => .error e
    | .ok cost =>
      .ok (.arr [jsGet quoteAgreement "attesterAddress",
        jsGet quoteAgreement "cTypeHash", cost,
        jsGet quoteAgreement "currency",
        jsGet quoteAgreement "termsAndConditions",
        jsGet quoteAgreement "timeframe",
        jsGet quoteAgreement "attesterSignature",
        jsGet quoteAgreement "claimerSignature",
        jsGet quoteAgreement "rootHash"])

/-- `decompressQuoteAgreement` (QuoteUtils): arity 9, cost at index 2. -/
def decompressQuoteAgreement (quoteAgreement : JSVal) : Except SDKError JSVal :=
  match quoteAgreement with
  | .arr xs =>
    if xs.length != 9 then
      .error (SDKError.ERROR_DECOMPRESSION_ARRAY none)
    else
      match decompressCost (xs.getD 2 .undefined) with
      | .error e => .error e
      | .ok cost =>
        .ok (.obj [("attesterAddress", xs.getD 0 .undefined), ("cTypeHash", xs.getD 1 .undefined),
          ("cost", cost), ("currency", xs.getD 3 .undefined),
          ("termsAndConditions", xs.getD 4 .undefined), ("timeframe", xs.getD 5 .undefined),
          ("attesterSignature", xs.getD 6 .undefined),
          ("claimerSignature", xs.getD 7 .undefined), ("rootHash", xs.getD 8 .undefined)])
  | _ => .error (SDKError.ERROR_DECOMPRESSION_ARRAY none)

/-- Canonical Attestation record object, in the field order the source's
`decompress` produces. -/
def attObj (claimHash cTypeHash owner revoked delegationId : JSVal) : JSVal :=
  .obj [("claimHash", claimHash), ("cTypeHash", cTypeHash), ("owner", owner),
    ("revoked", revoked), ("delegationId", delegationId)]

/-- Canonical cost-breakdown record object. -/
def costObj (gross net tax : JSVal) : JSVal :=
  .obj [("gross", gross), ("net", net), ("tax", tax)]

/-- Canonical Quote record object. -/
def quoteObj (attesterAddress cTypeHash cost currency termsAndConditions timeframe : JSVal) : JSVal :=
  .obj [("attesterAddress", attesterAddress), ("cTypeHash", cTypeHash), ("cost", cost),
    ("currency", currency), ("termsAndConditions", termsAndConditions),
    ("timeframe", timeframe)]

/-- Canonical attester-signed Quote record object. -/
def attesterSignedObj (attesterAddress cTypeHash cost currency termsAndConditions timeframe attesterSignature : JSVal) : JSVal :=
  .obj [("attesterAddress", attesterAddress), ("cTypeHash", cTypeHash), ("cost", cost),
    ("currency", currency), ("termsAndConditions", termsAndConditions),
    ("timeframe", timeframe), ("attesterSignature", attesterSignature)]

/-- Canonical Quote-agreement record object. -/
def agreementObj (attesterAddress cTypeHash cost currency termsAndConditions timeframe attesterSignature claimerSignature rootHash : JSVal) : JSVal :=
  .obj [("attesterAddress", attesterAddress), ("cTypeHash", cTypeHash), ("cost", cost),
    ("currency", currency), ("termsAndConditions", termsAndConditions),
    ("timeframe", timeframe), ("attesterSignature", attesterSignature),
    ("claimerSignature", claimerSignature), ("rootHash", rootHash)]

/-- The precedence accident makes the delegationId guard unsatisfiable: a
boolean is never strictly equal to `null`. -/
theorem delegationIdGuard_eq_false (input : JSVal) : delegationIdGuard input = false := by
  unfold delegationIdGuard
  simp [strictEq]

@[simp]
theorem jsGet_attObj_claimHash (v1 v2 v3 v4 v5 : JSVal) :
    jsGet (attObj v1 v2 v3 v4 v5) "claimHash" = v1 := rfl

@[simp]
theorem jsGet_attObj_cTypeHash (v1 v2 v3 v4 v5 : JSVal) :
    jsGet (attObj v1 v2 v3 v4 v5) "cTypeHash" = v2 := rfl

@[simp]
theorem jsGet_attObj_owner (v1 v2 v3 v4 v5 : JSVal) :
    jsGet (attObj v1 v2 v3 v4 v5) "owner" = v3 := rfl

@[simp]
theorem jsGet_attObj_revoked (v1 v2 v3 v4 v5 : JSVal) :
    jsGet (attObj v1 v2 v3 v4 v5) "revoked" = v4 := rfl

@[simp]
theorem jsGet_attObj_delegationId (v1 v2 v3 v4 v5 : JSVal) :
    jsGet (attObj v1 v2 v3 v4 v5) "delegationId" = v5 := rfl

@[simp]
theorem jsGet_costObj_gross (g n t : JSVal) : jsGet (costObj g n t) "gross" = g := rfl

@[simp]
theorem jsGet_costObj_net (g n t : JSVal) : jsGet (costObj g n t) "net" = n := rfl

@[simp]
theorem jsGet_costObj_tax (g n t : JSVal) : jsGet (costObj g n t) "tax" = t := rfl

@[simp]
theorem jsGet_quoteObj_attesterAddress (a c k cur tc tf : JSVal) :
    jsGet (quoteObj a c k cur tc tf) "attesterAddress" = a := rfl

@[simp]
theorem jsGet_quoteObj_cTypeHash (a c k cur tc tf : JSVal) :
    jsGet (quoteObj a c k cur tc tf) "cTypeHash" = c := rfl

@[simp]
theorem jsGet_quoteObj_cost (a c k cur tc tf : JSVal) :
    jsGet (quoteObj a c k cur tc tf) "cost" = k := rfl

@[simp]
theorem jsGet_quoteObj_currency (a c k cur tc tf : JSVal) :
    jsGet (quoteObj a c k cur tc tf) "currency" = cur := rfl

@[simp]
theorem jsGet_quoteObj_termsAndConditions (a c k cur tc tf : JSVal) :
    jsGet (quoteObj a c k cur tc tf) "termsAndConditions" = tc := rfl

@[simp]
theorem jsGet_quoteObj_timeframe (a c k cur tc tf : JSVal) :
    jsGet (quoteObj a c k cur tc tf) "timeframe" = tf := rfl

@[simp]
theorem jsGet_attesterSignedObj_attesterAddress (a c k cur tc tf sg : JSVal) :
    jsGet (attesterSignedObj a c k cur tc tf sg) "attesterAddress" = a := rfl

@[simp]
theorem jsGet_attesterSignedObj_cTypeHash (a c k cur tc tf sg : JSVal) :
    jsGet (attesterSignedObj a c k cur tc tf sg) "cTypeHash" = c := rfl

@[simp]
theorem jsGet_attesterSignedObj_cost (a c k cur tc tf sg : JSVal) :
    jsGet (attesterSignedObj a c k cur tc tf sg) "cost" = k := rfl

@[simp]
theorem jsGet_attesterSignedObj_currency (a c k cur tc tf sg : JSVal) :
    jsGet (attesterSignedObj a c k cur tc tf sg) "currency" = cur := rfl

@[simp]
theorem jsGet_attesterSignedObj_termsAndConditions (a c k cur tc tf sg : JSVal) :
    jsGet (attesterSignedObj a c k cur tc tf sg) "termsAndConditions" = tc := rfl

@[simp]
theorem jsGet_attesterSignedObj_timeframe (a c k cur tc tf sg : JSVal) :
    jsGet (attesterSignedObj a c k cur tc tf sg) "timeframe" = tf := rfl

@[simp]
theorem jsGet_attesterSignedObj_attesterSignature (a c k cur tc tf sg : JSVal) :
    jsGet (attesterSignedObj a c k cur tc tf sg) "attesterSignature" = sg := rfl

@[simp]
theorem jsGet_agreementObj_attesterAddress (a c k cur tc tf sg cs rh : JSVal) :
    jsGet (agreementObj a c k cur tc tf sg cs rh) "attesterAddress" = a := rfl

@[simp]
theorem jsGet_agreementObj_cTypeHash (a c k cur tc tf sg cs rh : JSVal) :
    jsGet (agreementObj a c k cur tc tf sg cs rh) "cTypeHash" = c := rfl

@[simp]
theorem jsGet_agreementObj_cost (a c k cur tc tf sg cs rh : JSVal) :
    jsGet (agreementObj a c k cur tc tf sg cs rh) "cost" = k := rfl

@[simp]
theorem jsGet_agreementObj_currency (a c k cur tc tf sg cs rh : JSVal) :
    jsGet (agreementObj a c k cur tc tf sg cs rh) "currency" = cur := rfl

@[simp]
theorem jsGet_agreementObj_termsAndConditions (a c k cur tc tf sg cs rh : JSVal) :
    jsGet (agreementObj a c k cur tc tf sg cs rh) "termsAndConditions" = tc := rfl

@[simp]
theorem jsGet_agreementObj_timeframe (a c k cur tc tf sg cs rh : JSVal) :
    jsGet (agreementObj a c k cur tc tf sg cs rh) "timeframe" = tf := rfl

@[simp]
theorem jsGet_agreementObj_attesterSignature (a c k cur tc tf sg cs rh : JSVal) :
    jsGet (agreementObj a c k cur tc tf sg cs rh) "attesterSignature" = sg := rfl

@[simp]
theorem jsGet_agreementObj_claimerSignature (a c k cur tc tf sg cs rh : JSVal) :
    jsGet (agreementObj a c k cur tc tf sg cs rh) "claimerSignature" = cs := rfl

@[simp]
theorem jsGet_agreementObj_rootHash (a c k cur tc tf sg cs rh : JSVal) :
    jsGet (agreementObj a c k cur tc tf sg cs rh) "rootHash" = rh := rfl

@[simp]
theorem attDecompress_tuple (v1 v2 v3 v4 v5 : JSVal) :
    attDecompress (.arr [v1, v2, v3, v4, v5]) = .ok (attObj v1 v2 v3 v4 v5) := rfl

@[simp]
theorem decompressCost_tuple (g n t : JSVal) :
    decompressCost (.arr [g, n, t]) = .ok (costObj g n t) := rfl

@[simp]
theorem decompressQuote_tuple (a c g n t cur tc tf : JSVal) :
    decompressQuote (.arr [a, c, .arr [g, n, t], cur, tc, tf]) =
      .ok (quoteObj a c (costObj g n t) cur tc tf) := rfl

@[simp]
theorem decompressAttesterSignedQuote_tuple (a c g n t cur tc tf sg : JSVal) :
    decompressAttesterSignedQuote (.arr [a, c, .arr [g, n, t], cur, tc, tf, sg]) =
      .ok (attesterSignedObj a c (costObj g n t) cur tc tf sg) := rfl

@[simp]
theorem decompressQuoteAgreement_tuple (a c g n t cur tc tf sg cs rh : JSVal) :
    decompressQuoteAgreement (.arr [a, c, .arr [g, n, t], cur, tc, tf, sg, cs, rh]) =
      .ok (agreementObj a c (costObj g n t) cur tc tf sg cs rh) := rfl

/-- Normal form of `decompressCost`: succeed exactly on 3-arrays. -/
theorem decompressCost_eq (v : JSVal) :
    decompressCost v =
      if jsIsArrayOfLength v 3 then
        .ok (costObj (jsIndex v 0) (jsIndex v 1) (jsIndex v 2))
      else .error (SDKError.ERROR_DECOMPRESSION_ARRAY (some "Cost Breakdown")) := by
  rcases v with _ | _ | b | n | s | xs | fs <;>
    simp [decompressCost, jsIsArrayOfLength, jsIndex, costObj]

/-- Normal form of `attDecompress`: succeed exactly on 5-arrays. -/
theorem attDecompress_eq (v : JSVal) :
    attDecompress v =
      if jsIsArrayOfLength v 5 then
        .ok (attObj (jsIndex v 0) (jsIndex v 1) (jsIndex v 2) (jsIndex v 3) (jsIndex v 4))
      else .error (SDKError.ERROR_DECOMPRESSION_ARRAY (some "Attestation")) := by
  rcases v with _ | _ | b | n | s | xs | fs <;>
    simp [attDecompress, jsIsArrayOfLength, jsIndex, attObj]

@[simp]
theorem jsIsArrayOfLength_arr (xs : List JSVal) (n : Nat) :
    jsIsArrayOfLength (.arr xs) n = (xs.length == n) := rfl

@[simp]
theorem jsIndex_arr (xs : List JSVal) (i : Nat) :
    jsIndex (.arr xs) i = xs.getD i .undefined := rfl

/-- `decompressQuote` raises the shape-mismatch family exactly when the input
is not a 6-array or its cost entry is not a 3-array. -/
theorem isArrMismatch_decompressQuote (v : JSVal) :
    isArrMismatch (decompressQuote v) =
      ! (jsIsArrayOfLength v 6 && jsIsArrayOfLength (jsIndex v 2) 3) := by
  cases v with
  | arr xs =>
    simp only [decompressQuote, jsIsArrayOfLength_arr, jsIndex_arr]
    generalize xs.getD 2 JSVal.undefined = c
    rw [decompressCost_eq c]
    by_cases h : xs.length = 6
    · by_cases h2 : jsIsArrayOfLength c 3 = true
      · rw [if_pos h2]
        simp [h, h2, isArrMismatch]
      · rw [if_neg h2]
        simp only [Bool.not_eq_true] at h2
        simp [h, h2, isArrMismatch]
    · simp [h, isArrMismatch]
  | undefined => simp [decompressQuote, jsIsArrayOfLength, jsIndex, isArrMismatch]
  | null => simp [decompressQuote, jsIsArrayOfLength, jsIndex, isArrMismatch]
  | bool b => simp [decompressQuote, jsIsArrayOfLength, jsIndex, isArrMismatch]
  | num n => simp [decompressQuote, jsIsArrayOfLength, jsIndex, isArrMismatch]
  | str s => simp [decompressQuote, jsIsArrayOfLength, jsIndex, isArrMismatch]
  | obj fields => simp [decompressQuote, jsIsArrayOfLength, jsIndex, isArrMismatch]

/-- Shape-mismatch condition of `decompressAttesterSignedQuote` (arity 7). -/
theorem isArrMismatch_decompressAttesterSignedQuote (v : JSVal) :
    isArrMismatch (decompressAttesterSignedQuote v) =
      ! (jsIsArrayOfLength v 7 && jsIsArrayOfLength (jsIndex v 2) 3) := by
  cases v with
  | arr xs =>
    simp only [decompressAttesterSignedQuote, jsIsArrayOfLength_arr, jsIndex_arr]
    generalize xs.getD 2 JSVal.undefined = c
    rw [decompressCost_eq c]
    by_cases h : xs.length = 7
    · by_cases h2 : jsIsArrayOfLength c 3 = true
      · rw [if_pos h2]
        simp [h, h2, isArrMismatch]
      · rw [if_neg h2]
        simp only [Bool.not_eq_true] at h2
        simp [h, h2, isArrMismatch]
    · simp [h, isArrMismatch]
  | undefined => simp [decompressAttesterSignedQuote, jsIsArrayOfLength, jsIndex, isArrMismatch]
  | null => simp [decompressAttesterSignedQuote, jsIsArrayOfLength, jsIndex, isArrMismatch]
  | bool b => simp [decompressAttesterSignedQuote, jsIsArrayOfLength, jsIndex, isArrMismatch]
  | num n => simp [decompressAttesterSignedQuote, jsIsArrayOfLength, jsIndex, isArrMismatch]
  | str s => simp [decompressAttesterSignedQuote, jsIsArrayOfLength, jsIndex, isArrMismatch]
  | obj fields => simp [decompressAttesterSignedQuote, jsIsArrayOfLength, jsIndex, isArrMismatch]

/-- Shape-mismatch condition of `decompressQuoteAgreement` (arity 9). -/
theorem isArrMismatch_decompressQuoteAgreement (v : JSVal) :
    isArrMismatch (decompressQuoteAgreement v) =
      ! (jsIsArrayOfLength v 9 && jsIsArrayOfLength (jsIndex v 2) 3) := by
  cases v with
  | arr xs =>
    simp only [decompressQuoteAgreement, jsIsArrayOfLength_arr, jsIndex_arr]
    generalize xs.getD 2 JSVal.undefined = c
    rw [decompressCost_eq c]
    by_cases h : xs.length = 9
    · by_cases h2 : jsIsArrayOfLength c 3 = true
      · rw [if_pos h2]
        simp [h, h2, isArrMismatch]
      · rw [if_neg h2]
        simp only [Bool.not_eq_true] at h2
        simp [h, h2, isArrMismatch]
    · simp [h, isArrMismatch]
  | undefined => simp [decompressQuoteAgreement, jsIsArrayOfLength, jsIndex, isArrMismatch]
  | null => simp [decompressQuoteAgreement, jsIsArrayOfLength, jsIndex, isArrMismatch]
  | bool b => simp [decompressQuoteAgreement, jsIsArrayOfLength, jsIndex, isArrMismatch]
  | num n => simp [decompressQuoteAgreement, jsIsArrayOfLength, jsIndex, isArrMismatch]
  | str s => simp [decompressQuoteAgreement, jsIsArrayOfLength, jsIndex, isArrMismatch]
  | obj fields => simp [decompressQuoteAgreement, jsIsArrayOfLength, jsIndex, isArrMismatch]

/-- Attestation decompression raises the shape mismatch exactly off
5-arrays. -/
theorem isArrMismatch_attDecompress (v : JSVal) :
    isArrMismatch (attDecompress v) = ! jsIsArrayOfLength v 5 := by
  rw [attDecompress_eq]
  by_cases h : jsIsArrayOfLength v 5 = true <;> simp [h, isArrMismatch]

/-- Attestation decompression succeeds exactly on 5-arrays. -/
theorem isOkRes_attDecompress (v : JSVal) :
    isOkRes (attDecompress v) = jsIsArrayOfLength v 5 := by
  rw [attDecompress_eq]
  by_cases h : jsIsArrayOfLength v 5 = true <;> simp [h, isOkRes]

/-- Cost decompression raises the shape mismatch exactly off 3-arrays. -/
theorem isArrMismatch_decompressCost (v : JSVal) :
    isArrMismatch (decompressCost v) = ! jsIsArrayOfLength v 3 := by
  rw [decompressCost_eq]
  by_cases h : jsIsArrayOfLength v 3 = true <;> simp [h, isArrMismatch]

/-- C8: the `ERROR_DELEGATION_ID_TYPE` branch of the Attestation
`errorCheck` is unreachable for every input and every validator: the source
guard `typeof input.delegationId !== 'string' && !input.delegationId ===
null` compares a boolean to `null` (operator precedence), so it is false for
all values of `delegationId`, and `errorCheck` (hence `compress`) never
raises that error. -/
theorem C8_delegation_error_unreachable :
    (∀ input : JSVal, delegationIdGuard input = false) ∧
    (∀ (V : DataValidators) (input : JSVal),
      attErrorCheck V input ≠ Except.error SDKError.ERROR_DELEGATION_ID_TYPE) := by
  refine ⟨delegationIdGuard_eq_false, ?_⟩
  intro V input
  simp only [attErrorCheck, delegationIdGuard_eq_false, Bool.false_eq_true, if_false]
  repeat (split <;> try simp)

/-- C5 (amended): decompression raises the `ArrayShapeMismatch` family
exactly when the input fails the shape tests, where for the Attestation the
test is being an array of length 5, while for the Quote family the nested
cost entry must additionally be an array of length 3 (its failure also
raises the mismatch error, so a well-arity Quote tuple can still fail);
furthermore an Attestation 5-tuple decompresses to the full record with
`revoked = false` preserved. -/
theorem C5_decompress_arity_amended :
    (∀ v : JSVal, isArrMismatch (attDecompress v) = ! jsIsArrayOfLength v 5) ∧
    (∀ v : JSVal, isOkRes (attDecompress v) = jsIsArrayOfLength v 5) ∧
    (∀ v : JSVal, isArrMismatch (decompressCost v) = ! jsIsArrayOfLength v 3) ∧
    (∀ v : JSVal, isArrMismatch (decompressQuote v) =
      ! (jsIsArrayOfLength v 6 && jsIsArrayOfLength (jsIndex v 2) 3)) ∧
    (∀ v : JSVal, isArrMismatch (decompressAttesterSignedQuote v) =
      ! (jsIsArrayOfLength v 7 && jsIsArrayOfLength (jsIndex v 2) 3)) ∧
    (∀ v : JSVal, isArrMismatch (decompressQuoteAgreement v) =
      ! (jsIsArrayOfLength v 9 && jsIsArrayOfLength (jsIndex v 2) 3)) ∧
    attDecompress (.arr [.str "0xclaim", .str "0xctype", .str "addr", .bool false, .null]) =
      .ok (attObj (.str "0xclaim") (.str "0xctype") (.str "addr") (.bool false) .null) :=
  ⟨isArrMismatch_attDecompress, isOkRes_attDecompress, isArrMismatch_decompressCost,
    isArrMismatch_decompressQuote, isArrMismatch_decompressAttesterSignedQuote,
    isArrMismatch_decompressQuoteAgreement, rfl⟩

/-- An input on which the frozen claim's "exactly when" fails: an array of
the Quote's fixed arity 6 whose cost entry is not a 3-array still raises the
`ArrayShapeMismatch` family (from the nested cost decompression). -/
def c5tuple : JSVal :=
  .arr [.str "attester", .str "0xctype", .str "notanarray", .str "kilt",
    .str "terms", .str "timeframe"]

/-- C5 counterexample: `c5tuple` is an array of the correct arity for a
Quote, yet `decompressQuote` fails with the shape-mismatch error, so
decompression does not fail with that error exactly on arity violations. -/
theorem C5_quote_nested_cost_cex :
    jsIsArrayOfLength c5tuple 6 = true ∧
    decompressQuote c5tuple =
      .error (SDKError.ERROR_DECOMPRESSION_ARRAY (some "Cost Breakdown")) :=
  ⟨rfl, rfl⟩

/-- C6: compression fails with the `MalformedRecord` error family when a
required field is absent or falsy — Attestation requires cTypeHash,
claimHash and owner; Quote requires its six fields; the cost breakdown
requires gross, net and tax — while an Attestation whose `revoked` field is
the boolean `false` is accepted: compression succeeds and places `false` at
the revoked position of the tuple. -/
theorem C6_compress_required_fields :
    (∀ (V : DataValidators) (a : JSVal), truthy (jsGet a "cTypeHash") = false →
      attCompress V a = .error SDKError.ERROR_CTYPE_HASH_NOT_PROVIDED) ∧
    (∀ (V : DataValidators) (a : JSVal), truthy (jsGet a "cTypeHash") = true →
      V.hashOk (jsGet a "cTypeHash") = true → truthy (jsGet a "claimHash") = false →
      attCompress V a = .error SDKError.ERROR_CLAIM_HASH_NOT_PROVIDED) ∧
    (∀ (V : DataValidators) (a : JSVal), truthy (jsGet a "cTypeHash") = true →
      V.hashOk (jsGet a "cTypeHash") = true → truthy (jsGet a "claimHash") = true →
      V.hashOk (jsGet a "claimHash") = true → truthy (jsGet a "owner") = false →
      attCompress V a = .error SDKError.ERROR_OWNER_NOT_PROVIDED) ∧
    (∀ q : JSVal,
      (truthy (jsGet q "attesterAddress") = false ∨ truthy (jsGet q "cTypeHash") = false ∨
        truthy (jsGet q "cost") = false ∨ truthy (jsGet q "currency") = false ∨
        truthy (jsGet q "termsAndConditions") = false ∨ truthy (jsGet q "timeframe") = false) →
      compressQuote q = .error (SDKError.ERROR_COMPRESS_OBJECT "Quote")) ∧
    (∀ c : JSVal,
      (truthy (jsGet c "gross") = false ∨ truthy (jsGet c "net") = false ∨
        truthy (jsGet c "tax") = false) →
      compressCost c = .error (SDKError.ERROR_COMPRESS_OBJECT "Cost Breakdown")) ∧
    (∀ (V : DataValidators) (a : JSVal), truthy (jsGet a "cTypeHash") = true →
      V.hashOk (jsGet a "cTypeHash") = true → truthy (jsGet a "claimHash") = true →
      V.hashOk (jsGet a "claimHash") = true → truthy (jsGet a "owner") = true →
      V.addressOk (jsGet a "owner") = true → jsGet a "revoked" = .bool false →
      attCompress V a = .ok (.arr [jsGet a "claimHash", jsGet a "cTypeHash",
        jsGet a "owner", .bool false, jsGet a "delegationId"])) ∧
    SDKError.isMalformedRecord SDKError.ERROR_CTYPE_HASH_NOT_PROVIDED = true ∧
    SDKError.isMalformedRecord SDKError.ERROR_CLAIM_HASH_NOT_PROVIDED = true ∧
    SDKError.isMalformedRecord SDKError.ERROR_OWNER_NOT_PROVIDED = true ∧
    SDKError.isMalformedRecord (SDKError.ERROR_COMPRESS_OBJECT "Quote") = true ∧
    SDKError.isMalformedRecord (SDKError.ERROR_COMPRESS_OBJECT "Cost Breakdown") = true := by
  refine ⟨?_, ?_, ?_, ?_, ?_, ?_, rfl, rfl, rfl, rfl, rfl⟩
  · intro V a h1
    simp [attCompress, attErrorCheck, h1]
  · intro V a h1 h2 h3
    simp [attCompress, attErrorCheck, h1, h2, h3]
  · intro V a h1 h2 h3 h4 h5
    simp [attCompress, attErrorCheck, h1, h2, h3, h4, h5, delegationIdGuard_eq_false]
  · intro q h
    rcases h with h | h | h | h | h | h <;> simp [compressQuote, h]
  · intro c h
    rcases h with h | h | h <;> simp [compressCost, h]
  · intro V a h1 h2 h3 h4 h5 h6 h7
    simp [attCompress, attErrorCheck, h1, h2, h3, h4, h5, h6, h7,
      delegationIdGuard_eq_false, jsTypeof]

@[simp]
theorem truthy_obj (fields : List (String × JSVal)) : truthy (.obj fields) = true := rfl

@[simp]
theorem truthy_arr (xs : List JSVal) : truthy (.arr xs) = true := rfl

@[simp]
theorem truthy_costObj (g n t : JSVal) : truthy (costObj g n t) = true := rfl

/-- C4 (amended): for every record whose entries are valid — required fields
truthy, hashes and addresses accepted by the external validators, `revoked` a
boolean — `decompress (compress r) = r` for Attestation, Quote,
AttesterSignedQuote, QuoteAgreement and CostBreakdown; and for every tuple of
the correct arity whose entries are valid in the same sense,
`compress (decompress t) = t`. (Without the entry-validity restriction the
tuple direction fails: compression re-validates and rejects falsy entries,
see the counterexample.) -/
theorem C4_codec_roundtrip_amended :
    (∀ (V : DataValidators) (v1 v2 v3 v4 v5 : JSVal),
      truthy v2 = true → V.hashOk v2 = true → truthy v1 = true → V.hashOk v1 = true →
      truthy v3 = true → V.addressOk v3 = true → jsTypeof v4 = "boolean" →
      (attCompress V (attObj v1 v2 v3 v4 v5)).bind attDecompress =
        .ok (attObj v1 v2 v3 v4 v5)) ∧
    (∀ (V : DataValidators) (v1 v2 v3 v4 v5 : JSVal),
      truthy v2 = true → V.hashOk v2 = true → truthy v1 = true → V.hashOk v1 = true →
      truthy v3 = true → V.addressOk v3 = true → jsTypeof v4 = "boolean" →
      (attDecompress (.arr [v1, v2, v3, v4, v5])).bind (attCompress V) =
        .ok (.arr [v1, v2, v3, v4, v5])) ∧
    (∀ g n t : JSVal, truthy g = true → truthy n = true → truthy t = true →
      (compressCost (costObj g n t)).bind decompressCost = .ok (costObj g n t)) ∧
    (∀ g n t : JSVal, truthy g = true → truthy n = true → truthy t = true →
      (decompressCost (.arr [g, n, t])).bind compressCost = .ok (.arr [g, n, t])) ∧
    (∀ a ch cur tc tf g n t : JSVal,
      truthy a = true → truthy ch = true → truthy cur = true → truthy tc = true →
      truthy tf = true → truthy g = true → truthy n = true → truthy t = true →
      (compressQuote (quoteObj a ch (costObj g n t) cur tc tf)).bind decompressQuote =
        .ok (quoteObj a ch (costObj g n t) cur tc tf)) ∧
    (∀ a ch cur tc tf g n t : JSVal,
      truthy a = true → truthy ch = true → truthy cur = true → truthy tc = true →
      truthy tf = true → truthy g = true → truthy n = true → truthy t = true →
      (decompressQuote (.arr [a, ch, .arr [g, n, t], cur, tc, tf])).bind compressQuote =
        .ok (.arr [a, ch, .arr [g, n, t], cur, tc, tf])) ∧
    (∀ a ch cur tc tf sg g n t : JSVal,
      truthy a = true → truthy ch = true → truthy cur = true → truthy tc = true →
      truthy tf = true → truthy sg = true → truthy g = true → truthy n = true →
      truthy t = true →
      (compressAttesterSignedQuote
        (attesterSignedObj a ch (costObj g n t) cur tc tf sg)).bind
          decompressAttesterSignedQuote =
        .ok (attesterSignedObj a ch (costObj g n t) cur tc tf sg)) ∧
    (∀ a ch cur tc tf sg g n t : JSVal,
      truthy a = true → truthy ch = true → truthy cur = true → truthy tc = true →
      truthy tf = true → truthy sg = true → truthy g = true → truthy n = true →
      truthy t = true →
      (decompressAttesterSignedQuote (.arr [a, ch, .arr [g, n, t], cur, tc, tf, sg])).bind
          compressAttesterSignedQuote =
        .ok (.arr [a, ch, .arr [g, n, t], cur, tc, tf, sg])) ∧
    (∀ a ch cur tc tf sg cs rh g n t : JSVal,
      truthy a = true → truthy ch = true → truthy cur = true → truthy tc = true →
      truthy tf = true → truthy sg = true → truthy g = true → truthy n = true →
      truthy t = true →
      (compressQuoteAgreement
        (agreementObj a ch (costObj g n t) cur tc tf sg cs rh)).bind
          decompressQuoteAgreement =
        .ok (agreementObj a ch (costObj g n t) cur tc tf sg cs rh)) ∧
    (∀ a ch cur tc tf sg cs rh g n t : JSVal,
      truthy a = true → truthy ch = true → truthy cur = true → truthy tc = true →
      truthy tf = true → truthy sg = true → truthy g = true → truthy n = true →
      truthy t = true →
      (decompressQuoteAgreement
        (.arr [a, ch, .arr [g, n, t], cur, tc, tf, sg, cs, rh])).bind
          compressQuoteAgreement =
        .ok (.arr [a, ch, .arr [g, n, t], cur, tc, tf, sg, cs, rh])) := by
  refine ⟨?_, ?_, ?_, ?_, ?_, ?_, ?_, ?_, ?_, ?_⟩
  · intro V v1 v2 v3 v4 v5 h1 h2 h3 h4 h5 h6 h7
    simp [attCompress, attErrorCheck, delegationIdGuard_eq_false,
      h1, h2, h3, h4, h5, h6, h7, Except.bind]
  · intro V v1 v2 v3 v4 v5 h1 h2 h3 h4 h5 h6 h7
    simp [attCompress, attErrorCheck, delegationIdGuard_eq_false,
      h1, h2, h3, h4, h5, h6, h7, Except.bind]
  · intro g n t h1 h2 h3
    simp [compressCost, h1, h2, h3, Except.bind]
  · intro g n t h1 h2 h3
    simp [compressCost, h1, h2, h3, Except.bind]
  · intro a ch cur tc tf g n t h1 h2 h3 h4 h5 h6 h7 h8
    simp [compressQuote, compressCost, h1, h2, h3, h4, h5, h6, h7, h8, Except.bind]
  · intro a ch cur tc tf g n t h1 h2 h3 h4 h5 h6 h7 h8
    simp [compressQuote, compressCost, h1, h2, h3, h4, h5, h6, h7, h8, Except.bind]
  · intro a ch cur tc tf sg g n t h1 h2 h3 h4 h5 h6 h7 h8 h9
    simp [compressAttesterSignedQuote, compressCost,
      h1, h2, h3, h4, h5, h6, h7, h8, h9, Except.bind]
  · intro a ch cur tc tf sg g n t h1 h2 h3 h4 h5 h6 h7 h8 h9
    simp [compressAttesterSignedQuote, compressCost,
      h1, h2, h3, h4, h5, h6, h7, h8, h9, Except.bind]
  · intro a ch cur tc tf sg cs rh g n t h1 h2 h3 h4 h5 h6 h7 h8 h9
    simp [compressQuoteAgreement, compressCost,
      h1, h2, h3, h4, h5, h6, h7, h8, h9, Except.bind]
  · intro a ch cur tc tf sg cs rh g n t h1 h2 h3 h4 h5 h6 h7 h8 h9
    simp [compressQuoteAgreement, compressCost,
      h1, h2, h3, h4, h5, h6, h7, h8, h9, Except.bind]

/-- All-accepting external validators, for concrete evaluations. -/
def c4validators : DataValidators := ⟨fun _ => true, fun _ => true⟩

/-- An Attestation tuple of the correct arity 5 whose required entries are
falsy (empty strings). -/
def c4tuple : JSVal := .arr [.str "", .str "", .str "", .bool false, .null]

/-- C4 counterexample: `c4tuple` is well-formed in the arity sense — it
decompresses successfully — yet `compress (decompress c4tuple)` is not
`c4tuple` but the `MalformedRecord` error for the missing cTypeHash, so the
tuple-direction round-trip of the frozen claim fails without the
entry-validity restriction. -/
theorem C4_falsy_tuple_cex :
    isOkRes (attDecompress c4tuple) = true ∧
    (attDecompress c4tuple).bind (attCompress c4validators) =
      .error SDKError.ERROR_CTYPE_HASH_NOT_PROVIDED :=
  ⟨rfl, rfl⟩

/-- The closed enumeration of message-body kinds (Message.ts,
`MessageBodyType`). -/
inductive MessageBodyType where
  | REQUEST_TERMS
  | SUBMIT_TERMS
  | REJECT_TERMS
  | INITIATE_ATTESTATION
  | REQUEST_ATTESTATION_FOR_CLAIM
  | SUBMIT_ATTESTATION_FOR_CLAIM
  | REJECT_ATTESTATION_FOR_CLAIM
  | REQUEST_CLAIMS_FOR_CTYPES
  | SUBMIT_CLAIMS_FOR_CTYPES_CLASSIC
  | SUBMIT_CLAIMS_FOR_CTYPES_PE
  | ACCEPT_CLAIMS_FOR_CTYPES
  | REJECT_CLAIMS_FOR_CTYPES
  | REQUEST_ACCEPT_DELEGATION
  | SUBMIT_ACCEPT_DELEGATION
  | REJECT_ACCEPT_DELEGATION
  | INFORM_CREATE_DELEGATION
deriving DecidableEq

/-- Claim contents: a flat mapping from property names to scalar values
(types/Claim). Scalars are kept as strings; their inner structure is never
inspected by the embedded code. -/
def ClaimContents := List (String × String)

instance : DecidableEq ClaimContents := by
  unfold ClaimContents
  infer_instance

/-- An IClaim record: what a claim asserts, its schema hash and its owner. -/
structure IClaim where
  cTypeHash : String
  contents : ClaimContents
  owner : String
deriving DecidableEq

/-- The part of an IRequestForAttestation the messaging layer reads: the
claim it wraps (whose owner the owner-binding check inspects) and its root
hash. -/
structure IRequestForAttestation where
  claim : IClaim
  rootHash : String
deriving DecidableEq

/-- An IAttestation record, typed as the messaging layer sees it. -/
structure IAttestation where
  claimHash : String
  cTypeHash : String
  owner : String
  revoked : Bool
  delegationId : Option String
deriving DecidableEq

/-- An IAttestedClaim: a request for attestation plus the attestation. -/
structure IAttestedClaim where
  request : IRequestForAttestation
  attestation : IAttestation
deriving DecidableEq

/-- An IPartialClaim: cTypeHash required, owner and contents optional. -/
structure IPartialClaim where
  cTypeHash : String
  owner : Option String
  contents : Option ClaimContents
deriving DecidableEq

/-- ITerms, reduced to the parts with identity-bearing content. -/
structure ITermsM where
  claim : IPartialClaim
  legitimations : List IAttestedClaim
  delegationId : Option String
deriving DecidableEq

/-- Content of REQUEST_ATTESTATION_FOR_CLAIM
(`IRequestAttestationForClaimContent`). -/
structure IRequestAttestationForClaimContent where
  requestForAttestation : IRequestForAttestation
  quote : Option String
deriving DecidableEq

/-- Content of SUBMIT_ATTESTATION_FOR_CLAIM
(`ISubmitAttestationForClaimContent`). -/
structure ISubmitAttestationForClaimContent where
  attestation : IAttestation
deriving DecidableEq

/-- Content of REQUEST_CLAIMS_FOR_CTYPES
(`IRequestClaimsForCTypesContent`). -/
structure IRequestClaimsForCTypesContent where
  ctypes : List (Option String)
  allowPE : Bool
deriving DecidableEq

/-- Delegation data (`IDelegationData`); permissions as numeric codes. -/
structure IDelegationData where
  account : String
  id : String
  parentId : String
  permissions : List Nat
  isPCR : Bool
deriving DecidableEq

/-- Content of REQUEST_ACCEPT_DELEGATION
(`IRequestDelegationApproval`). -/
structure IRequestDelegationApproval where
  delegationData : IDelegationData
  inviterSignature : String
deriving DecidableEq

/-- Content of SUBMIT_ACCEPT_DELEGATION (`ISubmitDelegationApproval`). -/
structure ISubmitDelegationApproval where
  delegationData : IDelegationData
  inviterSignature : String
  inviteeSignature : String
deriving DecidableEq

/-- Content of INFORM_CREATE_DELEGATION (`IInformDelegationCreation`). -/
structure IInformDelegationCreation where
  delegationId : String
  isPCR : Bool
deriving DecidableEq

/-- The tagged union of message bodies (Message.ts, `MessageBody`): each
variant pairs a kind tag with its content shape. Contents that the embedded
operations never inspect are carried as opaque strings. -/
inductive MessageBody where
  | requestTerms (content : IPartialClaim)
  | submitTerms (content : ITermsM)
  | rejectTerms (content : ITermsM)
  | initiateAttestation (content : String)
  | requestAttestationForClaim (content : IRequestAttestationForClaimContent)
  | submitAttestationForClaim (content : ISubmitAttestationForClaimContent)
  | rejectAttestationForClaim (content : String)
  | requestClaimsForCTypes (content : IRequestClaimsForCTypesContent)
  | submitClaimsForCTypesClassic (content : List IAttestedClaim)
  | submitClaimsForCTypesPE (content : String)
  | acceptClaimsForCTypes (content : List String)
  | rejectClaimsForCTypes (content : List String)
  | requestAcceptDelegation (content : IRequestDelegationApproval)
  | submitAcceptDelegation (content : ISubmitDelegationApproval)
  | rejectAcceptDelegation (content : IDelegationData)
  | informCreateDelegation (content : IInformDelegationCreation)
deriving DecidableEq

/-- The tag of a message body (`body.type`). -/
def MessageBody.bodyType : MessageBody → MessageBodyType
  | .requestTerms _ => .REQUEST_TERMS
  | .submitTerms _ => .SUBMIT_TERMS
  | .rejectTerms _ => .REJECT_TERMS
  | .initiateAttestation _ => .INITIATE_ATTESTATION
  | .requestAttestationForClaim _ => .REQUEST_ATTESTATION_FOR_CLAIM
  | .submitAttestationForClaim _ => .SUBMIT_ATTESTATION_FOR_CLAIM
  | .rejectAttestationForClaim _ => .REJECT_ATTESTATION_FOR_CLAIM
  | .requestClaimsForCTypes _ => .REQUEST_CLAIMS_FOR_CTYPES
  | .submitClaimsForCTypesClassic _ => .SUBMIT_CLAIMS_FOR_CTYPES_CLASSIC
  | .submitClaimsForCTypesPE _ => .SUBMIT_CLAIMS_FOR_CTYPES_PE
  | .acceptClaimsForCTypes _ => .ACCEPT_CLAIMS_FOR_CTYPES
  | .rejectClaimsForCTypes _ => .REJECT_CLAIMS_FOR_CTYPES
  | .requestAcceptDelegation _ => .REQUEST_ACCEPT_DELEGATION
  | .submitAcceptDelegation _ => .SUBMIT_ACCEPT_DELEGATION
  | .rejectAcceptDelegation _ => .REJECT_ACCEPT_DELEGATION
  | .informCreateDelegation _ => .INFORM_CREATE_DELEGATION

/-- Modelled from the spec: the compressed message-body wire form
`[kindTag, contentTuple]` (Message.utils is not in the source set). Each
variant carries the same data as the structured form; for the record-backed
contents the tuple layout is the positional one of §4.1 of the spec, carried
here isomorphically to the structured content. -/
inductive CompressedMessageBody where
  | requestTerms (content : IPartialClaim)
  | submitTerms (content : ITermsM)
  | rejectTerms (content : ITermsM)
  | initiateAttestation (content : String)
  | requestAttestationForClaim (content : IRequestAttestationForClaimContent)
  | submitAttestationForClaim (claimHash cTypeHash owner : String) (revoked : Bool)
      (delegationId : Option String)
  | rejectAttestationForClaim (rootHash : String)
  | requestClaimsForCTypes (content : IRequestClaimsForCTypesContent)
  | submitClaimsForCTypesClassic (content : List IAttestedClaim)
  | submitClaimsForCTypesPE (content : String)
  | acceptClaimsForCTypes (content : List String)
  | rejectClaimsForCTypes (content : List String)
  | requestAcceptDelegation (content : IRequestDelegationApproval)
  | submitAcceptDelegation (content : ISubmitDelegationApproval)
  | rejectAcceptDelegation (content : IDelegationData)
  | informCreateDelegation (content : IInformDelegationCreation)
deriving DecidableEq

/-- Modelled from the spec: `decompressMessage` (Message.utils is not in the
source set) — the total dispatch from the compressed wire form back to the
structured body, selecting by kind tag. -/
def decompressMessage : CompressedMessageBody → MessageBody
  | .requestTerms c => .requestTerms c
  | .submitTerms c => .submitTerms c
  | .rejectTerms c => .rejectTerms c
  | .initiateAttestation c => .initiateAttestation c
  | .requestAttestationForClaim c => .requestAttestationForClaim c
  | .submitAttestationForClaim ch cth ow rv dg =>
    .submitAttestationForClaim ⟨⟨ch, cth, ow, rv, dg⟩⟩
  | .rejectAttestationForClaim rh => .rejectAttestationForClaim rh
  | .requestClaimsForCTypes c => .requestClaimsForCTypes c
  | .submitClaimsForCTypesClassic c => .submitClaimsForCTypesClassic c
  | .submitClaimsForCTypesPE c => .submitClaimsForCTypesPE c
  | .acceptClaimsForCTypes c => .acceptClaimsForCTypes c
  | .rejectClaimsForCTypes c => .rejectClaimsForCTypes c
  | .requestAcceptDelegation c => .requestAcceptDelegation c
  | .submitAcceptDelegation c => .submitAcceptDelegation c
  | .rejectAcceptDelegation c => .rejectAcceptDelegation c
  | .informCreateDelegation c => .informCreateDelegation c

/-- An Identity (external collaborator): its key material is abstracted to a
seed from which the signing address and the encryption (box) public key are
derived injectively. -/
structure Identity where
  seed : String
deriving DecidableEq

/-- The SS58 address derived from the identity's signing key. -/
def Identity.address (i : Identity) : String := "addr:" ++ i.seed

/-- The hex form of the identity's encryption public key
(`getBoxPublicKey`). -/
def Identity.getBoxPublicKey (i : Identity) : String := "box:" ++ i.seed

/-- The public projection of an identity (`IPublicIdentity`). -/
structure IPublicIdentity where
  address : String
  boxPublicKeyAsHex : String
deriving DecidableEq

/-- `getPublicIdentity`. -/
def Identity.getPublicIdentity (i : Identity) : IPublicIdentity :=
  ⟨i.address, i.getBoxPublicKey⟩

/-- The plaintext strings the envelope encrypts: the JSON serialization of a
structured body, of a compressed body, or a string that is not valid JSON.
`JSON.stringify` is injective on the serialized values, which this symbolic
representation captures by construction. -/
inductive PlainStr where
  | ofBody (b : MessageBody)
  | ofComp (c : CompressedMessageBody)
  | invalid (s : String)
deriving DecidableEq

/-- A ciphertext of the external asymmetric box (spec §6): symbolically, the
sealed plaintext together with the key material it was sealed under and the
nonce used. Decryption succeeds exactly when it is opened with the matching
keys and nonce. -/
structure Cipher where
  plain : PlainStr
  senderBoxPublicKey : String
  receiverBoxPublicKey : String
  sealedNonce : String
deriving DecidableEq

/-- The `EncryptedAsymmetricString` pair `{ box, nonce }` of the crypto
module. -/
structure EncryptedAsymmetricString where
  box : Cipher
  nonce : String
deriving DecidableEq

/-- `encryptAsymmetricAsStr`: seal the plaintext from the sender to the
receiver's box public key, with a nonce (derived deterministically here; the
model never relies on nonce freshness). -/
def Identity.encryptAsymmetricAsStr (sender : Identity) (plain : PlainStr)
    (receiverBoxPublicKey : String) : EncryptedAsymmetricString :=
  let nonce := "nonce:" ++ sender.seed
  ⟨⟨plain, sender.getBoxPublicKey, receiverBoxPublicKey, nonce⟩, nonce⟩

/-- `decryptAsymmetricAsStr`: open the box with the receiver's key against
the sender's declared box public key; `none` models the source's `false`
result on failure. -/
def Identity.decryptAsymmetricAsStr (receiver : Identity)
    (ea : EncryptedAsymmetricString) (senderBoxPublicKey : String) : Option PlainStr :=
  if ea.box.senderBoxPublicKey = senderBoxPublicKey ∧
      ea.box.receiverBoxPublicKey = receiver.getBoxPublicKey ∧
      ea.box.sealedNonce = ea.nonce then
    some ea.box.plain
  else
    none

/-- A digest of the external collision-resistant hash (spec §6), idealised
as an injective constructor over the hashed data. The envelope only ever
hashes the concatenation `message + nonce + createdAt`. -/
inductive Digest where
  | hashOf (message : Cipher) (nonce : String) (createdAt : Int)
deriving DecidableEq

/-- `Crypto.hashStr(message + nonce + createdAt)`. -/
def hashStr (message : Cipher) (nonce : String) (createdAt : Int) : Digest :=
  .hashOf message nonce createdAt

/-- A signature of the external signature scheme, idealised as the signed
digest together with the signer. -/
inductive Sig where
  | sigOf (data : Digest) (signerSeed : String)
deriving DecidableEq

/-- `signStr`: sign a digest with the identity's signing key. -/
def Identity.signStr (i : Identity) (data : Digest) : Sig :=
  .sigOf data i.seed

/-- `Crypto.verify`: a signature verifies against a digest and an address
exactly when it was produced over that digest by the identity with that
address. -/
def verifySignature (data : Digest) (signature : Sig) (address : String) : Bool :=
  match signature with
  | .sigOf d seed => d = data ∧ ("addr:" ++ seed) = address

/-- Modelled from the spec: `DataUtils.validateSignature` is not in the
source set; per §4.3 it verifies the signature over the hash against the
sender address and raises the signature error on failure. -/
def validateSignature (data : Digest) (signature : Sig) (address : String) :
    Except SDKError Unit :=
  if verifySignature data signature address then .ok ()
  else .error SDKError.ERROR_SIGNATURE_UNVERIFIABLE

/-- The wire envelope `IEncryptedMessage` (Message.ts): transport metadata
plus ciphertext, nonce, hash and signature. -/
structure IEncryptedMessage where
  messageId : Option String
  receivedAt : Option Int
  message : Cipher
  nonce : String
  createdAt : Int
  hash : Digest
  signature : Sig
  receiverAddress : String
  senderAddress : String
  senderBoxPublicKey : String
deriving DecidableEq

/-- What `JSON.parse` of the decrypted string yields, cast to `MessageBody`
by the source's TypeScript annotation: a structured body if the plaintext
serialized one, the raw array value if it serialized a compressed body (the
cast does not validate), and no value at all if the text is not JSON. -/
inductive ParsedBody where
  | struct (b : MessageBody)
  | comp (c : CompressedMessageBody)
deriving DecidableEq

/-- `body.type` as the switch in `ensureOwnerIsSender` reads it: the tag of
a structured body, and `undefined` (`none`) when the parsed value is the
compressed array, which has no `type` property. -/
def ParsedBody.typeTag : ParsedBody → Option MessageBodyType
  | .struct b => some b.bodyType
  | .comp _ => none

/-- `JSON.parse` on the decrypted plaintext: an error is the exception the
source's try block catches. -/
def jsonParse : PlainStr → Except SDKError ParsedBody
  | .ofBody b => .ok (.struct b)
  | .ofComp c => .ok (.comp c)
  | .invalid _ => .error SDKError.ERROR_PARSING_MESSAGE

/-- The decrypted message `IMessage` (Message.ts): the body together with
the envelope metadata spread into it. -/
structure IMessage where
  body : ParsedBody
  createdAt : Int
  receiverAddress : String
  senderAddress : String
  senderBoxPublicKey : String
  messageId : Option String
  receivedAt : Option Int
deriving DecidableEq

/-- The `forEach` of the classic claim-submission owner check: raise on the
first contained claim whose owner is not the sender. -/
def ensureClaimsOwner (content : List IAttestedClaim) (senderAddress : String) :
    Except SDKError Unit :=
  match content with
  | [] => .ok ()
  | claim :: rest =>
    if claim.request.claim.owner ≠ senderAddress then
      .error (SDKError.ERROR_IDENTITY_MISMATCH "Claims" "Sender")
    else
      ensureClaimsOwner rest senderAddress

/-- `Message.ensureOwnerIsSender`: the switch on `body.type` enforcing owner
binding for the three ownership-asserting kinds; every other tag falls to
the empty default case. A parsed compressed array has no `type` and also
falls through. -/
def Message.ensureOwnerIsSender (m : IMessage) : Except SDKError Unit :=
  match m.body with
  | .struct (.requestAttestationForClaim content) =>
    if content.requestForAttestation.claim.owner ≠ m.senderAddress then
      .error (SDKError.ERROR_IDENTITY_MISMATCH "Claim" "Sender")
    else
      .ok ()
  | .struct (.submitAttestationForClaim content) =>
    if content.attestation.owner ≠ m.senderAddress then
      .error (SDKError.ERROR_IDENTITY_MISMATCH "Attestation" "Sender")
    else
      .ok ()
  | .struct (.submitClaimsForCTypesClassic content) =>
    ensureClaimsOwner content m.senderAddress
  | _ => .ok ()

/-- `Message.ensureHashAndSignature`: recompute the digest of
`message + nonce + createdAt` and compare it to the carried hash, then
verify the signature over the hash against the sender address. -/
def Message.ensureHashAndSignature (encrypted : IEncryptedMessage)
    (senderAddress : String) : Except SDKError Unit :=
  if hashStr encrypted.message encrypted.nonce encrypted.createdAt ≠ encrypted.hash then
    .error SDKError.ERROR_NONCE_HASH_INVALID
  else
    validateSignature encrypted.hash encrypted.signature senderAddress

/-- `Message.decrypt`: hash and signature verification, asymmetric
decryption, JSON parsing, owner binding — in that order. The source wraps
the parse, the construction of the decrypted message and the owner check in
one try/catch whose handler throws `ERROR_PARSING_MESSAGE`, so a failed
owner check also surfaces as the parsing error. -/
def Message.decrypt (encrypted : IEncryptedMessage) (receiver : Identity) :
    Except SDKError IMessage :=
  match Message.ensureHashAndSignature encrypted encrypted.senderAddress with
  | .error e => .error e
  | .ok _ =>
    match receiver.decryptAsymmetricAsStr ⟨encrypted.message, encrypted.nonce⟩
        encrypted.senderBoxPublicKey with
    | none => .error SDKError.ERROR_DECODING_MESSAGE
    | some decoded =>
      match jsonParse decoded with
      | .error _ => .error SDKError.ERROR_PARSING_MESSAGE
      | .ok messageBody =>
        match Message.ensureOwnerIsSender
            { body := messageBody, createdAt := encrypted.createdAt,
              receiverAddress := encrypted.receiverAddress,
              senderAddress := encrypted.senderAddress,
              senderBoxPublicKey := encrypted.senderBoxPublicKey,
              messageId := encrypted.messageId, receivedAt := encrypted.receivedAt } with
        | .error _ => .error SDKError.ERROR_PARSING_MESSAGE
        | .ok _ =>
          .ok { body := messageBody, createdAt := encrypted.createdAt,
                receiverAddress := encrypted.receiverAddress,
                senderAddress := encrypted.senderAddress,
                senderBoxPublicKey := encrypted.senderBoxPublicKey,
                messageId := encrypted.messageId, receivedAt := encrypted.receivedAt }

/-- The verification/decryption steps of `Message.decrypt`, for the
ordering property. -/
inductive Step where
  | hashCheck
  | signatureCheck
  | decryptCipher
  | parsePayload
  | ownerCheck
deriving DecidableEq

/-- `Message.decrypt` instrumented with the list of steps it performs, in
order: the computational content is that of `Message.decrypt`
(`Message.decryptTrace_snd`), with each check recorded as it runs. -/
def Message.decryptTrace (encrypted : IEncryptedMessage) (receiver : Identity) :
    List Step × Except SDKError IMessage :=
  if hashStr encrypted.message encrypted.nonce encrypted.createdAt ≠ encrypted.hash then
    ([.hashCheck], .error SDKError.ERROR_NONCE_HASH_INVALID)
  else if ! verifySignature encrypted.hash encrypted.signature encrypted.senderAddress then
    ([.hashCheck, .signatureCheck], .error SDKError.ERROR_SIGNATURE_UNVERIFIABLE)
  else
    match receiver.decryptAsymmetricAsStr ⟨encrypted.message, encrypted.nonce⟩
        encrypted.senderBoxPublicKey with
    | none => ([.hashCheck, .signatureCheck, .decryptCipher],
        .error SDKError.ERROR_DECODING_MESSAGE)
    | some decoded =>
      match jsonParse decoded with
      | .error _ => ([.hashCheck, .signatureCheck, .decryptCipher, .parsePayload],
          .error SDKError.ERROR_PARSING_MESSAGE)
      | .ok messageBody =>
        match Message.ensureOwnerIsSender
            { body := messageBody, createdAt := encrypted.createdAt,
              receiverAddress := encrypted.receiverAddress,
              senderAddress := encrypted.senderAddress,
              senderBoxPublicKey := encrypted.senderBoxPublicKey,
              messageId := encrypted.messageId, receivedAt := encrypted.receivedAt } with
        | .error _ => ([.hashCheck, .signatureCheck, .decryptCipher, .parsePayload,
            .ownerCheck], .error SDKError.ERROR_PARSING_MESSAGE)
        | .ok _ => ([.hashCheck, .signatureCheck, .decryptCipher, .parsePayload,
            .ownerCheck], .ok { body := messageBody, createdAt := encrypted.createdAt,
                                receiverAddress := encrypted.receiverAddress,
                                senderAddress := encrypted.senderAddress,
                                senderBoxPublicKey := encrypted.senderBoxPublicKey,
                                messageId := encrypted.messageId,
                                receivedAt := encrypted.receivedAt })

/-- The Message instance after construction (Message.ts): the stored body
and metadata plus the encrypted fields the constructor computes. -/
structure Message where
  messageId : Option String
  receivedAt : Option Int
  body : ParsedBody
  createdAt : Int
  receiverAddress : String
  senderAddress : String
  senderBoxPublicKey : String
  message : Cipher
  nonce : String
  hash : Digest
  signature : Sig
deriving DecidableEq

/-- The Message constructor: `Array.isArray(body)` selects the compressed
branch (`Sum.inr`), which is decompressed into `this.body`; `createdAt` is
the construction time (passed explicitly here in place of `Date.now()`).
The ciphertext encrypts `JSON.stringify(body)` — the constructor parameter,
not the stored `this.body` — exactly as the source does; the hash covers
`message + nonce + createdAt` and the signature covers the hash. -/
def Message.construct (body : Sum MessageBody CompressedMessageBody)
    (sender : Identity) (receiver : IPublicIdentity) (now : Int) : Message :=
  let storedBody : ParsedBody :=
    match body with
    | .inr c => .struct (decompressMessage c)
    | .inl b => .struct b
  let plain : PlainStr :=
    match body with
    | .inl b => .ofBody b
    | .inr c => .ofComp c
  let encryptedMessage := sender.encryptAsymmetricAsStr plain receiver.boxPublicKeyAsHex
  let hash := hashStr encryptedMessage.box encryptedMessage.nonce now
  { messageId := none, receivedAt := none, body := storedBody, createdAt := now,
    receiverAddress := receiver.address, senderAddress := sender.address,
    senderBoxPublicKey := sender.getBoxPublicKey,
    message := encryptedMessage.box, nonce := encryptedMessage.nonce,
    hash := hash, signature := sender.signStr hash }

/-- `Message.encrypt`: project the constructed message to its wire form;
no re-encryption happens. -/
def Message.encrypt (m : Message) : IEncryptedMessage :=
  { messageId := m.messageId, receivedAt := m.receivedAt, message := m.message,
    nonce := m.nonce, createdAt := m.createdAt, hash := m.hash,
    signature := m.signature, receiverAddress := m.receiverAddress,
    senderAddress := m.senderAddress, senderBoxPublicKey := m.senderBoxPublicKey }

/-- The instrumented decryption computes exactly what `Message.decrypt`
computes. -/
theorem Message.decryptTrace_snd (e : IEncryptedMessage) (r : Identity) :
    (Message.decryptTrace e r).2 = Message.decrypt e r := by
  unfold Message.decryptTrace Message.decrypt Message.ensureHashAndSignature validateSignature
  by_cases h1 : hashStr e.message e.nonce e.createdAt ≠ e.hash
  · simp [h1]
  · cases hv : verifySignature e.hash e.signature e.senderAddress with
    | false => simp [h1, hv]
    | true =>
      simp only [h1, hv]
      simp [h1]
      cases hD : r.decryptAsymmetricAsStr ⟨e.message, e.nonce⟩ e.senderBoxPublicKey with
      | none => simp [hD]
      | some decoded =>
        simp [hD]
        cases hP : jsonParse decoded with
        | error err => simp [hP]
        | ok mb =>
          simp [hP]
          cases hO : Message.ensureOwnerIsSender
              (⟨mb, e.createdAt, e.receiverAddress, e.senderAddress,
                e.senderBoxPublicKey, e.messageId, e.receivedAt⟩ : IMessage) with
          | error err2 => simp [hO]
          | ok u => simp [hO]

/-- C1: decryption performs its checks in the fixed order hash
verification, signature verification, asymmetric decryption, payload
parsing, owner binding — the step trace is always a prefix of that
sequence; the ciphertext is only ever decrypted after both the hash
comparison and the signature verification succeeded; the instrumented
pipeline computes exactly `Message.decrypt`; and a returned message means
every step ran. A failing step yields an `Except.error`, so no payload
reaches the caller. -/
theorem C1_decrypt_verification_order :
    ∀ (e : IEncryptedMessage) (r : Identity),
      ((Message.decryptTrace e r).1 ∈
        [[Step.hashCheck], [Step.hashCheck, Step.signatureCheck],
         [Step.hashCheck, Step.signatureCheck, Step.decryptCipher],
         [Step.hashCheck, Step.signatureCheck, Step.decryptCipher, Step.parsePayload],
         [Step.hashCheck, Step.signatureCheck, Step.decryptCipher, Step.parsePayload,
          Step.ownerCheck]]) ∧
      (Step.decryptCipher ∈ (Message.decryptTrace e r).1 →
        hashStr e.message e.nonce e.createdAt = e.hash ∧
        verifySignature e.hash e.signature e.senderAddress = true) ∧
      ((Message.decryptTrace e r).2 = Message.decrypt e r) ∧
      (∀ m : IMessage, (Message.decryptTrace e r).2 = .ok m →
        (Message.decryptTrace e r).1 =
          [Step.hashCheck, Step.signatureCheck, Step.decryptCipher, Step.parsePayload,
           Step.ownerCheck]) := by
  intro e r
  refine ⟨?_, ?_, Message.decryptTrace_snd e r, ?_⟩
  · unfold Message.decryptTrace
    by_cases h1 : hashStr e.message e.nonce e.createdAt ≠ e.hash
    · simp [h1]
    · cases hv : verifySignature e.hash e.signature e.senderAddress with
      | false => simp [h1, hv]
      | true =>
        simp [h1, hv]
        cases hD : r.decryptAsymmetricAsStr ⟨e.message, e.nonce⟩ e.senderBoxPublicKey with
        | none => simp [hD]
        | some decoded =>
          simp [hD]
          cases hP : jsonParse decoded with
          | error err => simp [hP]
          | ok mb =>
            simp [hP]
            cases hO : Message.ensureOwnerIsSender
                (⟨mb, e.createdAt, e.receiverAddress, e.senderAddress,
                  e.senderBoxPublicKey, e.messageId, e.receivedAt⟩ : IMessage) with
            | error err2 => simp [hO]
            | ok u => simp [hO]
  · unfold Message.decryptTrace
    by_cases h1 : hashStr e.message e.nonce e.createdAt ≠ e.hash
    · simp [h1]
    · have h1eq : hashStr e.message e.nonce e.createdAt = e.hash := not_not.mp h1
      cases hv : verifySignature e.hash e.signature e.senderAddress with
      | false => simp [h1, hv]
      | true =>
        simp [h1, hv]
        cases hD : r.decryptAsymmetricAsStr ⟨e.message, e.nonce⟩ e.senderBoxPublicKey with
        | none => simp [hD, h1eq]
        | some decoded =>
          simp [hD]
          cases hP : jsonParse decoded with
          | error err => simp [hP, h1eq]
          | ok mb =>
            simp [hP]
            cases hO : Message.ensureOwnerIsSender
                (⟨mb, e.createdAt, e.receiverAddress, e.senderAddress,
                  e.senderBoxPublicKey, e.messageId, e.receivedAt⟩ : IMessage) with
            | error err2 => simp [hO, h1eq]
            | ok u => simp [hO, h1eq]
  · unfold Message.decryptTrace
    by_cases h1 : hashStr e.message e.nonce e.createdAt ≠ e.hash
    · simp [h1]
    · cases hv : verifySignature e.hash e.signature e.senderAddress with
      | false => simp [h1, hv]
      | true =>
        simp [h1, hv]
        cases hD : r.decryptAsymmetricAsStr ⟨e.message, e.nonce⟩ e.senderBoxPublicKey with
        | none => simp [hD]
        | some decoded =>
          simp [hD]
          cases hP : jsonParse decoded with
          | error err => simp [hP]
          | ok mb =>
            simp [hP]
            cases hO : Message.ensureOwnerIsSender
                (⟨mb, e.createdAt, e.receiverAddress, e.senderAddress,
                  e.senderBoxPublicKey, e.messageId, e.receivedAt⟩ : IMessage) with
            | error err2 => simp [hO]
            | ok u => simp [hO]

/-- The owner check only reads the body and the sender address: the other
message fields do not influence it. -/
theorem ensureOwnerIsSender_fields (body : ParsedBody) (sa : String)
    (c c2 : Int) (rv rv2 sb sb2 : String) (mi mi2 : Option String)
    (ra ra2 : Option Int) :
    Message.ensureOwnerIsSender ⟨body, c, rv, sa, sb, mi, ra⟩ =
      Message.ensureOwnerIsSender ⟨body, c2, rv2, sa, sb2, mi2, ra2⟩ := rfl

/-- A message whose body-declared owners are `addr:alice` while the sender
is `addr:mallory`, for each of the three ownership-asserting kinds. -/
def c10msg (b : MessageBody) : IMessage :=
  ⟨.struct b, 0, "addr:bob", "addr:mallory", "box:mallory", none, none⟩

/-- A REQUEST_ATTESTATION_FOR_CLAIM body owned by `addr:alice`. -/
def c10requestBody : MessageBody :=
  .requestAttestationForClaim ⟨⟨⟨"0xct", [], "addr:alice"⟩, "0xroot"⟩, none⟩

/-- A SUBMIT_ATTESTATION_FOR_CLAIM body owned by `addr:alice`. -/
def c10submitBody : MessageBody :=
  .submitAttestationForClaim ⟨⟨"0xclaim", "0xct", "addr:alice", false, none⟩⟩

/-- A classic claims submission containing one claim owned by
`addr:alice`. -/
def c10classicBody : MessageBody :=
  .submitClaimsForCTypesClassic
    [⟨⟨⟨"0xct", [], "addr:alice"⟩, "0xroot"⟩, ⟨"0xclaim", "0xct", "addr:alice", false, none⟩⟩]

/-- C10: `ensureOwnerIsSender` never throws for a message whose body type is
not one of REQUEST_ATTESTATION_FOR_CLAIM, SUBMIT_ATTESTATION_FOR_CLAIM or
SUBMIT_CLAIMS_FOR_CTYPES_CLASSIC (including a parsed compressed array, whose
`type` is undefined), regardless of any owner fields in the content and of
the sender address; and for each of those three kinds a mismatched owner
does raise the identity-mismatch error, so owner binding is enforced for
exactly those three kinds. -/
theorem C10_owner_check_scope :
    (∀ m : IMessage,
      m.body.typeTag ≠ some MessageBodyType.REQUEST_ATTESTATION_FOR_CLAIM →
      m.body.typeTag ≠ some MessageBodyType.SUBMIT_ATTESTATION_FOR_CLAIM →
      m.body.typeTag ≠ some MessageBodyType.SUBMIT_CLAIMS_FOR_CTYPES_CLASSIC →
      Message.ensureOwnerIsSender m = .ok ()) ∧
    Message.ensureOwnerIsSender (c10msg c10requestBody) =
      .error (SDKError.ERROR_IDENTITY_MISMATCH "Claim" "Sender") ∧
    Message.ensureOwnerIsSender (c10msg c10submitBody) =
      .error (SDKError.ERROR_IDENTITY_MISMATCH "Attestation" "Sender") ∧
    Message.ensureOwnerIsSender (c10msg c10classicBody) =
      .error (SDKError.ERROR_IDENTITY_MISMATCH "Claims" "Sender") := by
  refine ⟨?_, ?_, ?_, ?_⟩
  · intro m h1 h2 h3
    obtain ⟨body, c, rv, sa, sb, mi, ra⟩ := m
    cases body with
    | comp c2 => rfl
    | struct b =>
      cases b <;>
        first
          | rfl
          | simp [ParsedBody.typeTag, MessageBody.bodyType] at h1 h2 h3
  · rfl
  · rfl
  · rfl

/-- C9: only message, nonce and createdAt are integrity-protected by the
hash and only the hash is signature-protected; decryption reads nothing
else but the sender's address and box key. Two envelopes that differ only
in `messageId`, `receivedAt` or `receiverAddress` decrypt to the same body
or fail with the same error — the thread metadata never triggers the hash
or signature check. -/
theorem C9_thread_metadata_not_bound :
    ∀ (e1 e2 : IEncryptedMessage) (r : Identity),
      e1.message = e2.message → e1.nonce = e2.nonce → e1.createdAt = e2.createdAt →
      e1.hash = e2.hash → e1.signature = e2.signature →
      e1.senderAddress = e2.senderAddress →
      e1.senderBoxPublicKey = e2.senderBoxPublicKey →
      (Message.decrypt e1 r).map IMessage.body =
        (Message.decrypt e2 r).map IMessage.body := by
  intro e1 e2 r hm hn hc hh hs hsa hsb
  obtain ⟨mi1, ra1, m1, n1, c1, ha1, s1, rv1, sa1, sb1⟩ := e1
  obtain ⟨mi2, ra2, m2, n2, c2, ha2, s2, rv2, sa2, sb2⟩ := e2
  simp only at hm hn hc hh hs hsa hsb
  subst hm hn hc hh hs hsa hsb
  unfold Message.decrypt Message.ensureHashAndSignature validateSignature
  simp only
  by_cases h1 : hashStr m1 n1 c1 ≠ ha1
  · simp [h1]
  · cases hv : verifySignature ha1 s1 sa1 with
    | false => simp [h1, hv]
    | true =>
      simp [h1, hv]
      cases hD : r.decryptAsymmetricAsStr ⟨m1, n1⟩ sb1 with
      | none => simp [hD]
      | some decoded =>
        simp [hD]
        cases hP : jsonParse decoded with
        | error err => simp [hP]
        | ok mb =>
          simp [hP]
          have hO2 := ensureOwnerIsSender_fields mb sa1 c1 c1 rv1 rv2 sb1 sb1 mi1 mi2 ra1 ra2
          cases hO : Message.ensureOwnerIsSender
              (⟨mb, c1, rv1, sa1, sb1, mi1, ra1⟩ : IMessage) with
          | error err2 => simp [hO, hO2.symm.trans hO]
          | ok u => simp [hO, hO2.symm.trans hO, Except.map]

/-- A sender identity for the concrete scenarios. -/
def aliceId : Identity := ⟨"alice"⟩

/-- A receiver identity for the concrete scenarios. -/
def bobId : Identity := ⟨"bob"⟩

/-- C9 witness fixture: an envelope from alice to bob. -/
def c9base : Message :=
  Message.construct (.inl (.initiateAttestation "gabi-session")) aliceId
    bobId.getPublicIdentity 0

/-- The fixture envelope with carrier-attached thread metadata. -/
def c9e1 : IEncryptedMessage :=
  { c9base.encrypt with
      messageId := some "msg-1"
      receivedAt := some 99
      receiverAddress := "addr:carol" }

/-- The fixture envelope as emitted. -/
def c9e2 : IEncryptedMessage := c9base.encrypt

/-- C9 witness: the two concrete envelopes differing only in messageId,
receivedAt and receiverAddress decrypt to the same outcome. -/
theorem C9_metadata_witness :
    (Message.decrypt c9e1 bobId).map IMessage.body =
      (Message.decrypt c9e2 bobId).map IMessage.body :=
  C9_thread_metadata_not_bound c9e1 c9e2 bobId rfl rfl rfl rfl rfl rfl rfl

/-- C2 (amended): for an envelope whose hash and signature verify and whose
ciphertext decrypts and parses to a SUBMIT_ATTESTATION_FOR_CLAIM body, a
mismatched `attestation.owner` makes decrypt fail — but with
`ERROR_PARSING_MESSAGE`, because the source catches the
`ERROR_IDENTITY_MISMATCH` thrown by the owner check inside the parse
try/catch and re-throws the parsing error; a matching owner makes decrypt
succeed and return the envelope. -/
theorem C2_owner_mismatch_fails_decrypt :
    ∀ (e : IEncryptedMessage) (r : Identity) (c : ISubmitAttestationForClaimContent),
      Message.ensureHashAndSignature e e.senderAddress = .ok () →
      r.decryptAsymmetricAsStr ⟨e.message, e.nonce⟩ e.senderBoxPublicKey =
        some (PlainStr.ofBody (MessageBody.submitAttestationForClaim c)) →
      (c.attestation.owner ≠ e.senderAddress →
        Message.decrypt e r = .error SDKError.ERROR_PARSING_MESSAGE) ∧
      (c.attestation.owner = e.senderAddress →
        Message.decrypt e r =
          .ok { body := .struct (.submitAttestationForClaim c),
                createdAt := e.createdAt, receiverAddress := e.receiverAddress,
                senderAddress := e.senderAddress,
                senderBoxPublicKey := e.senderBoxPublicKey,
                messageId := e.messageId, receivedAt := e.receivedAt }) := by
  intro e r c hhs hdec
  unfold Message.decrypt
  rw [hhs, hdec]
  constructor
  · intro hne
    simp [jsonParse, Message.ensureOwnerIsSender, hne]
  · intro heq
    simp [jsonParse, Message.ensureOwnerIsSender, heq]

/-- The attestation-submission content whose owner is not the sender
alice. -/
def c2badContent : ISubmitAttestationForClaimContent :=
  ⟨⟨"0xclaim", "0xct", "addr:mallory", false, none⟩⟩

/-- An envelope from alice to bob carrying the mismatched-owner
submission. -/
def c2badMsg : Message :=
  Message.construct (.inl (.submitAttestationForClaim c2badContent)) aliceId
    bobId.getPublicIdentity 0

/-- C2 counterexample: on a concrete envelope that passes hash and
signature verification and parses to an attestation submission whose owner
differs from the sender, `decrypt` fails with `ERROR_PARSING_MESSAGE`, which
is not an identity-mismatch error — the claimed `IdentityMismatch` is never
observed by the caller. -/
theorem C2_identity_mismatch_masked_cex :
    Message.decrypt c2badMsg.encrypt bobId = .error SDKError.ERROR_PARSING_MESSAGE ∧
    SDKError.isIdentityMismatch SDKError.ERROR_PARSING_MESSAGE = false :=
  ⟨rfl, rfl⟩

/-- The attestation-submission content whose owner is the sender alice. -/
def c2goodContent : ISubmitAttestationForClaimContent :=
  ⟨⟨"0xclaim", "0xct", "addr:alice", false, none⟩⟩

/-- An envelope from alice to bob carrying the matching-owner submission. -/
def c2goodMsg : Message :=
  Message.construct (.inl (.submitAttestationForClaim c2goodContent)) aliceId
    bobId.getPublicIdentity 0

/-- C2 witness: on the concrete matching-owner envelope the amended theorem
applies and decrypt succeeds, returning the envelope with the submitted
body. -/
theorem C2_owner_binding_witness :
    Message.decrypt c2goodMsg.encrypt bobId =
      .ok { body := .struct (.submitAttestationForClaim c2goodContent),
            createdAt := c2goodMsg.encrypt.createdAt,
            receiverAddress := c2goodMsg.encrypt.receiverAddress,
            senderAddress := c2goodMsg.encrypt.senderAddress,
            senderBoxPublicKey := c2goodMsg.encrypt.senderBoxPublicKey,
            messageId := c2goodMsg.encrypt.messageId,
            receivedAt := c2goodMsg.encrypt.receivedAt } :=
  (C2_owner_mismatch_fails_decrypt c2goodMsg.encrypt bobId c2goodContent rfl rfl).2 rfl

/-- The compressed-array payload of the C3 scenario: a
REJECT_ATTESTATION_FOR_CLAIM wire body. -/
def c3comp : CompressedMessageBody := .rejectAttestationForClaim "0xroot"

/-- The message constructed from the compressed-array payload. -/
def c3msg : Message :=
  Message.construct (.inr c3comp) aliceId bobId.getPublicIdentity 0

/-- The message constructed from the equivalent structured payload. -/
def c3structMsg : Message :=
  Message.construct (.inl (decompressMessage c3comp)) aliceId bobId.getPublicIdentity 0

/-- C3, evaluated at the failing input: the constructor given the
compressed-array form does store the decompressed structured body, but the
ciphertext encrypts `JSON.stringify` of the constructor argument — the
compressed array — so decrypting the emitted envelope yields the raw
compressed array as the body, not the structured body obtained when
constructing from the equivalent structured payload. The emitted envelope
therefore does not decrypt to the stored body. -/
theorem C3_compressed_body_encryption_bug :
    c3msg.body = ParsedBody.struct (decompressMessage c3comp) ∧
    c3msg.message.plain = PlainStr.ofComp c3comp ∧
    (Message.decrypt c3msg.encrypt bobId).map IMessage.body =
      .ok (ParsedBody.comp c3comp) ∧
    (Message.decrypt c3structMsg.encrypt bobId).map IMessage.body =
      .ok (ParsedBody.struct (decompressMessage c3comp)) ∧
    ParsedBody.comp c3comp ≠ ParsedBody.struct (decompressMessage c3comp) :=
  ⟨rfl, rfl, rfl, rfl, by simp⟩

/-- A cType schema; its inner structure is opaque to the embedded code
(schema validation is an external collaborator). -/
abbrev CTypeSchema := String

/-- An ICType as the Claim layer reads it: the hash and an optionally
present schema (the source tests `if (ctypeInput.schema)`). -/
structure ICType where
  hash : String
  schema : Option CTypeSchema
deriving DecidableEq

/-- Modelled from the spec: the external schema validator
(`CTypeUtils.verifyClaimStructure`, `CTypeUtils.validateNestedSchemas`) and
the structural validators used by the claim error check are not in the
source set; they are abstracted as boolean predicates. -/
structure SchemaValidators where
  verifyClaimStructure : ClaimContents → CTypeSchema → Bool
  validateNestedSchemas : Option CTypeSchema → List CTypeSchema → ClaimContents → Bool
  hashOk : String → Bool
  addressOk : String → Bool

/-- `verifyClaim` (Claim module): delegate to the external validator. -/
def verifyClaim (W : SchemaValidators) (claimContents : ClaimContents)
    (cTypeSchema : CTypeSchema) : Bool :=
  W.verifyClaimStructure claimContents cTypeSchema

/-- A constructed Claim object. -/
structure Claim where
  cTypeHash : String
  contents : ClaimContents
  owner : String
deriving DecidableEq

/-- Modelled from the spec: `ClaimUtils.errorCheck` is not in the source
set. It is the structural type guard the class also uses in `isIClaim`: it
receives only the claim input — no schema — so it checks field
well-formedness (cTypeHash present and hash-valid, owner present and
address-valid), not schema conformance. -/
def claimErrorCheck (W : SchemaValidators) (claimInput : IClaim) : Except SDKError Unit :=
  if claimInput.cTypeHash = "" then
    .error SDKError.ERROR_CTYPE_HASH_NOT_PROVIDED
  else if ! W.hashOk claimInput.cTypeHash then
    .error (SDKError.ERROR_HASH_MALFORMED "Claim CType")
  else if claimInput.owner = "" then
    .error SDKError.ERROR_OWNER_NOT_PROVIDED
  else if ! W.addressOk claimInput.owner then
    .error (SDKError.ERROR_ADDRESS_INVALID "Claim owner")
  else
    .ok ()

/-- The public Claim constructor `new Claim(claimInput)`: run the
structural error check, then copy the fields. It has no schema input. -/
def claimConstructor (W : SchemaValidators) (claimInput : IClaim) : Except SDKError Claim :=
  match claimErrorCheck W claimInput with
  | .error e => .error e
  | .ok _ => .ok ⟨claimInput.cTypeHash, claimInput.contents, claimInput.owner⟩

/-- `Claim.fromClaim`: verify the contents against the supplied schema,
then construct. -/
def Claim.fromClaim (W : SchemaValidators) (claimInput : IClaim)
    (cTypeSchema : CTypeSchema) : Except SDKError Claim :=
  if ! verifyClaim W claimInput.contents cTypeSchema then
    .error SDKError.ERROR_CLAIM_UNVERIFIABLE
  else
    claimConstructor W claimInput

/-- `Claim.fromNestedCTypeClaim`: validate against the nested schemas, then
construct. -/
def Claim.fromNestedCTypeClaim (W : SchemaValidators) (cTypeInput : ICType)
    (nestedCType : List CTypeSchema) (claimContents : ClaimContents)
    (claimOwner : String) : Except SDKError Claim :=
  if ! W.validateNestedSchemas cTypeInput.schema nestedCType claimContents then
    .error SDKError.ERROR_NESTED_CLAIM_UNVERIFIABLE
  else
    claimConstructor W ⟨cTypeInput.hash, claimContents, claimOwner⟩

/-- `Claim.fromCTypeAndClaimContents`: the schema check is guarded by
`if (ctypeInput.schema)` — with a falsy schema no verification happens and
the claim is constructed regardless. -/
def Claim.fromCTypeAndClaimContents (W : SchemaValidators) (ctypeInput : ICType)
    (claimContents : ClaimContents) (claimOwner : String) : Except SDKError Claim :=
  match ctypeInput.schema with
  | some schema =>
    if ! verifyClaim W claimContents schema then
      .error SDKError.ERROR_CLAIM_UNVERIFIABLE
    else
      claimConstructor W ⟨ctypeInput.hash, claimContents, claimOwner⟩
  | none => claimConstructor W ⟨ctypeInput.hash, claimContents, claimOwner⟩

/-- C7 (amended): `fromClaim` and `fromNestedCTypeClaim` reject any input
whose contents the validator refuses; `fromCTypeAndClaimContents` does so
only when the given cType carries a schema — when `ctypeInput.schema` is
absent it reduces to the bare constructor, which performs only the
structural error check and no schema validation, so a Claim can come into
existence without its contents ever being validated. -/
theorem C7_claim_validation_paths :
    (∀ (W : SchemaValidators) (ci : IClaim) (sch : CTypeSchema),
      W.verifyClaimStructure ci.contents sch = false →
      Claim.fromClaim W ci sch = .error SDKError.ERROR_CLAIM_UNVERIFIABLE) ∧
    (∀ (W : SchemaValidators) (ct : ICType) (nested : List CTypeSchema)
        (cc : ClaimContents) (ow : String),
      W.validateNestedSchemas ct.schema nested cc = false →
      Claim.fromNestedCTypeClaim W ct nested cc ow =
        .error SDKError.ERROR_NESTED_CLAIM_UNVERIFIABLE) ∧
    (∀ (W : SchemaValidators) (ct : ICType) (cc : ClaimContents) (ow : String)
        (sch : CTypeSchema),
      ct.schema = some sch → W.verifyClaimStructure cc sch = false →
      Claim.fromCTypeAndClaimContents W ct cc ow =
        .error SDKError.ERROR_CLAIM_UNVERIFIABLE) ∧
    (∀ (W : SchemaValidators) (ct : ICType) (cc : ClaimContents) (ow : String),
      ct.schema = none →
      Claim.fromCTypeAndClaimContents W ct cc ow =
        claimConstructor W ⟨ct.hash, cc, ow⟩) ∧
    (∀ (W : SchemaValidators) (ci : IClaim),
      claimErrorCheck W ci = .ok () →
      claimConstructor W ci = .ok ⟨ci.cTypeHash, ci.contents, ci.owner⟩) := by
  refine ⟨?_, ?_, ?_, ?_, ?_⟩
  · intro W ci sch h
    simp [Claim.fromClaim, verifyClaim, h]
  · intro W ct nested cc ow h
    simp [Claim.fromNestedCTypeClaim, h]
  · intro W ct cc ow sch hs h
    simp [Claim.fromCTypeAndClaimContents, hs, verifyClaim, h]
  · intro W ct cc ow hs
    simp [Claim.fromCTypeAndClaimContents, hs]
  · intro W ci h
    simp [claimConstructor, h]

/-- A validator that refuses every contents/schema pair but accepts all
structural checks. -/
def c7validators : SchemaValidators :=
  ⟨fun _ _ => false, fun _ _ _ => false, fun _ => true, fun _ => true⟩

/-- A cType whose schema is absent (falsy at runtime). -/
def c7ctype : ICType := ⟨"0xctype", none⟩

/-- Contents that validate against no schema whatsoever. -/
def c7contents : ClaimContents := [("age", "12")]

/-- C7 counterexample: with a schema-less cType, a Claim object comes into
existence through `fromCTypeAndClaimContents` although its contents
validate against no schema at all — construction is not rejected. -/
theorem C7_schemaless_ctype_cex :
    c7validators.verifyClaimStructure c7contents "drivers-license-schema" = false ∧
    Claim.fromCTypeAndClaimContents c7validators c7ctype c7contents "addr:alice" =
      .ok ⟨"0xctype", c7contents, "addr:alice"⟩ :=
  ⟨rfl, rfl⟩
